import Mathlib

/-
  Verification of the PyJ2534 binding layer.

  Shallow embedding of the three source modules:
    - PyJ2534/error.py  : error code enumeration, classification, exception type
    - PyJ2534/define.py : enumerations and the PASSTHRU_MSG / SBYTE_ARRAY structures
    - PyJ2534/dll.py    : the J2534Dll wrapper operations

  Machine integers are modelled as Nat (all native fields are unsigned 32-bit;
  overflow never occurs in the modelled paths).  Python exceptions are modelled
  with Except over an explicit error type.  The native DLL is opaque: each
  operation model is parametrised by the native call's outputs (status code and
  any data the native call writes), and the model records exactly the arguments
  the wrapper forwards across the boundary.
-/

namespace PyJ2534

/-! ### error.py : `J2534Errors` enumeration -/

/-- `class J2534Errors(IntEnum)` from error.py: the named J2534 return/error
codes.  The numeric value of each member is given by `toCode`. -/
inductive J2534Errors where
  | STATUS_NOERROR
  | ERR_NOT_SUPPORTED
  | ERR_INVALID_CHANNEL_ID
  | ERR_INVALID_PROTOCOL_ID
  | ERR_NULL_PARAMETER
  | ERR_INVALID_IOCTL_VALUE
  | ERR_INVALID_FLAGS
  | ERR_FAILED
  | ERR_DEVICE_NOT_CONNECTED
  | ERR_TIMEOUT
  | ERR_INVALID_MSG
  | ERR_INVALID_TIME_INTERVAL
  | ERR_EXCEEDED_LIMIT
  | ERR_INVALID_MSG_ID
  | ERR_DEVICE_IN_USE
  | ERR_INVALID_IOCTL_ID
  | ERR_BUFFER_EMPTY
  | ERR_BUFFER_FULL
  | ERR_BUFFER_OVERFLOW
  | ERR_PIN_INVALID
  | ERR_CHANNEL_IN_USE
  | ERR_MSG_PROTOCOL_ID
  | ERR_INVALID_FILTER_ID
  | ERR_NO_FLOW_CONTROL
  | ERR_NOT_UNIQUE
  | ERR_INVALID_BAUDRATE
  | ERR_INVALID_DEVICE_ID
  | RESERVED_J2534_1
  | RESERVED_J2534_2
  deriving DecidableEq, BEq, Fintype

/-- Numeric value of each `J2534Errors` member (the IntEnum values). -/
def J2534Errors.toCode : J2534Errors → Nat
  | .STATUS_NOERROR            => 0x00
  | .ERR_NOT_SUPPORTED         => 0x01
  | .ERR_INVALID_CHANNEL_ID    => 0x02
  | .ERR_INVALID_PROTOCOL_ID   => 0x03
  | .ERR_NULL_PARAMETER        => 0x04
  | .ERR_INVALID_IOCTL_VALUE   => 0x05
  | .ERR_INVALID_FLAGS         => 0x06
  | .ERR_FAILED                => 0x07
  | .ERR_DEVICE_NOT_CONNECTED  => 0x08
  | .ERR_TIMEOUT               => 0x09
  | .ERR_INVALID_MSG           => 0x0A
  | .ERR_INVALID_TIME_INTERVAL => 0x0B
  | .ERR_EXCEEDED_LIMIT        => 0x0C
  | .ERR_INVALID_MSG_ID        => 0x0D
  | .ERR_DEVICE_IN_USE         => 0x0E
  | .ERR_INVALID_IOCTL_ID      => 0x0F
  | .ERR_BUFFER_EMPTY          => 0x10
  | .ERR_BUFFER_FULL           => 0x11
  | .ERR_BUFFER_OVERFLOW       => 0x12
  | .ERR_PIN_INVALID           => 0x13
  | .ERR_CHANNEL_IN_USE        => 0x14
  | .ERR_MSG_PROTOCOL_ID       => 0x15
  | .ERR_INVALID_FILTER_ID     => 0x16
  | .ERR_NO_FLOW_CONTROL       => 0x17
  | .ERR_NOT_UNIQUE            => 0x18
  | .ERR_INVALID_BAUDRATE      => 0x19
  | .ERR_INVALID_DEVICE_ID     => 0x1A
  | .RESERVED_J2534_1          => 0x1B
  | .RESERVED_J2534_2          => 0x10000

/-- `J2534Errors(n)`: IntEnum construction by value.  Returns `none` exactly
when Python raises `ValueError` (`n` is not the value of any member). -/
def J2534Errors.ofNat? : Nat → Option J2534Errors
  | 0x00 => some .STATUS_NOERROR
  | 0x01 => some .ERR_NOT_SUPPORTED
  | 0x02 => some .ERR_INVALID_CHANNEL_ID
  | 0x03 => some .ERR_INVALID_PROTOCOL_ID
  | 0x04 => some .ERR_NULL_PARAMETER
  | 0x05 => some .ERR_INVALID_IOCTL_VALUE
  | 0x06 => some .ERR_INVALID_FLAGS
  | 0x07 => some .ERR_FAILED
  | 0x08 => some .ERR_DEVICE_NOT_CONNECTED
  | 0x09 => some .ERR_TIMEOUT
  | 0x0A => some .ERR_INVALID_MSG
  | 0x0B => some .ERR_INVALID_TIME_INTERVAL
  | 0x0C => some .ERR_EXCEEDED_LIMIT
  | 0x0D => some .ERR_INVALID_MSG_ID
  | 0x0E => some .ERR_DEVICE_IN_USE
  | 0x0F => some .ERR_INVALID_IOCTL_ID
  | 0x10 => some .ERR_BUFFER_EMPTY
  | 0x11 => some .ERR_BUFFER_FULL
  | 0x12 => some .ERR_BUFFER_OVERFLOW
  | 0x13 => some .ERR_PIN_INVALID
  | 0x14 => some .ERR_CHANNEL_IN_USE
  | 0x15 => some .ERR_MSG_PROTOCOL_ID
  | 0x16 => some .ERR_INVALID_FILTER_ID
  | 0x17 => some .ERR_NO_FLOW_CONTROL
  | 0x18 => some .ERR_NOT_UNIQUE
  | 0x19 => some .ERR_INVALID_BAUDRATE
  | 0x1A => some .ERR_INVALID_DEVICE_ID
  | 0x1B => some .RESERVED_J2534_1
  | 0x10000 => some .RESERVED_J2534_2
  | _ => none

/-- `_error_msg_map` from error.py.  Every member of `J2534Errors` is a key of
the source dict, so the dict is a total function on the enumeration; the
strings are transcribed exactly (Python adjacent string literals joined). -/
def _error_msg_map : J2534Errors → String
  | .STATUS_NOERROR => "Function call successful"
  | .ERR_NOT_SUPPORTED =>
      "Device cannot support requested functionality mandated in this " ++
      "document. Device is not fully SAE J2534 compliant"
  | .ERR_INVALID_CHANNEL_ID => "Invalid ChannelID value"
  | .ERR_INVALID_PROTOCOL_ID =>
      "Invalid ProtocolID value, unsupported ProtocolID, or there is a " ++
      "resource conflict (i.e. trying to connect to multiple protocols that " ++
      "are mutually exclusive such as J1850PWM and J1850VPW, or CAN and SCI " ++
      "A, etc.)"
  | .ERR_NULL_PARAMETER =>
      "NULL pointer supplied where a valid pointer is required"
  | .ERR_INVALID_IOCTL_VALUE => "Invalid value for Ioctl parameter"
  | .ERR_INVALID_FLAGS => "Invalid flag values"
  | .ERR_FAILED =>
      "Undefined error, use PassThruGetLastError for text description"
  | .ERR_DEVICE_NOT_CONNECTED => "Device ID invalid"
  | .ERR_TIMEOUT =>
      "Timeout. " ++
      "PassThruReadMsg: No message available to read or could not read the " ++
      "specified number of messages. The actual number of messages read is " ++
      "placed in <NumMsgs> " ++
      "PassThruWriteMsg: Device could not write the specified number of " ++
      "messages. The actual number of messages sent on the vehicle network " ++
      "is placed in <NumMsgs>."
  | .ERR_INVALID_MSG =>
      "Invalid message structure pointed to by pMsg (Reference Section 8 – " ++
      "Message Structure)"
  | .ERR_INVALID_TIME_INTERVAL => "Invalid TimeInterval value"
  | .ERR_EXCEEDED_LIMIT =>
      "Exceeded maximum number of message IDs or allocated space"
  | .ERR_INVALID_MSG_ID => "Invalid MsgID value"
  | .ERR_DEVICE_IN_USE => "Device is currently open"
  | .ERR_INVALID_IOCTL_ID => "Invalid IoctlID value"
  | .ERR_BUFFER_EMPTY =>
      "Protocol message buffer empty, no messages available to read"
  | .ERR_BUFFER_FULL =>
      "Protocol message buffer full. All the messages specified may not " ++
      "have been transmitted"
  | .ERR_BUFFER_OVERFLOW =>
      "Indicates a buffer overflow occurred and messages were lost"
  | .ERR_PIN_INVALID =>
      "Invalid pin number, pin number already in use, or voltage already " ++
      "applied to a different pin"
  | .ERR_CHANNEL_IN_USE => "Channel number is currently connected"
  | .ERR_MSG_PROTOCOL_ID =>
      "Protocol type in the message does not match the protocol associated " ++
      "with the Channel ID"
  | .ERR_INVALID_FILTER_ID => "Invalid Filter ID value"
  | .ERR_NO_FLOW_CONTROL =>
      "No flow control filter set or matched (for protocolID ISO15765 only)."
  | .ERR_NOT_UNIQUE =>
      "A CAN ID in pPatternMsg or pFlowControlMsg matches either ID in an " ++
      "existing FLOW_CONTROL_FILTER"
  | .ERR_INVALID_BAUDRATE =>
      "The desired baud rate cannot be achieved within the tolerance " ++
      "specified in Section 6.5"
  | .ERR_INVALID_DEVICE_ID => "Unable to communicate with device"
  | .RESERVED_J2534_1 => "Reserved for SAE J2534-1"
  | .RESERVED_J2534_2 => "Reserved for SAE J2534-2"

/-- The `errorID` computation inside `_get_error_text` (error.py lines
167-173), for an `int` argument:
`if err < RESERVED_J2534_1 (0x1B): J2534Errors(err)`
`elif err < RESERVED_J2534_2 (0x10000): RESERVED_J2534_1` `else: RESERVED_J2534_2`.
`none` models the `ValueError` that `J2534Errors(err)` would raise
(unreachable for `err < 0x1B` since codes 0x00-0x1A are all members). -/
def _error_id (err : Nat) : Option J2534Errors :=
  if err < 0x1B then J2534Errors.ofNat? err
  else if err < 0x10000 then some .RESERVED_J2534_1
  else some .RESERVED_J2534_2

/-- `_get_error_text` from error.py, restricted to `int` arguments (the
`isinstance(err, int)` branch).  The final `dict.get` has a default, but
every member is a key of `_error_msg_map`, so the lookup is total. -/
def _get_error_text (err : Nat) : Option String :=
  (_error_id err).map _error_msg_map

/-! ### define.py : `ProtocolID` and `PASSTHRU_MSG` -/

/-- `class ProtocolID(IntEnum)` from define.py.  Members are exactly the
named values; any other integer makes `ProtocolID(n)` raise `ValueError`. -/
inductive ProtocolID where
  | J1850VPW
  | J1850PWM
  | ISO9141
  | ISO14230
  | CAN
  | ISO15765
  | SCI_A_ENGINE
  | SCI_A_TRANS
  | SCI_B_ENGINE
  | SCI_B_TRANS
  | RESERVED
  | RESERVED_J2534_2
  | MFG_SPECIFIC
  deriving DecidableEq, BEq

/-- Numeric value of each `ProtocolID` member. -/
def ProtocolID.toCode : ProtocolID → Nat
  | .J1850VPW         => 0x01
  | .J1850PWM         => 0x02
  | .ISO9141          => 0x03
  | .ISO14230         => 0x04
  | .CAN              => 0x05
  | .ISO15765         => 0x06
  | .SCI_A_ENGINE     => 0x07
  | .SCI_A_TRANS      => 0x08
  | .SCI_B_ENGINE     => 0x09
  | .SCI_B_TRANS      => 0x0A
  | .RESERVED         => 0x0B
  | .RESERVED_J2534_2 => 0x8000
  | .MFG_SPECIFIC     => 0x10000

/-- `ProtocolID(n)`: IntEnum construction by value.  `none` models the
`ValueError` Python raises when `n` is not the value of any member (in
particular for every non-anchor value of the reserved and
manufacturer-specific bands, e.g. 0x0C-0x7FFF). -/
def ProtocolID.ofNat? : Nat → Option ProtocolID
  | 0x01 => some .J1850VPW
  | 0x02 => some .J1850PWM
  | 0x03 => some .ISO9141
  | 0x04 => some .ISO14230
  | 0x05 => some .CAN
  | 0x06 => some .ISO15765
  | 0x07 => some .SCI_A_ENGINE
  | 0x08 => some .SCI_A_TRANS
  | 0x09 => some .SCI_B_ENGINE
  | 0x0A => some .SCI_B_TRANS
  | 0x0B => some .RESERVED
  | 0x8000 => some .RESERVED_J2534_2
  | 0x10000 => some .MFG_SPECIFIC
  | _ => none

/-- `PASSTHRU_MSG` ctypes structure from define.py.  `data` models the
`_Data` field, a fixed `c_ubyte*4128` array (always length 4128; each
entry a byte value).  The `Timestamp`, `DataSize` and `ExtraDataIndex`
ctypes field descriptors shadow the same-named properties, so those three
fields are plain unsigned fields. -/
structure PASSTHRU_MSG where
  protocolID : Nat
  rxStatus : Nat
  txFlags : Nat
  timestamp : Nat
  dataSize : Nat
  extraDataIndex : Nat
  data : List Nat
  deriving DecidableEq

/-- `PASSTHRU_MSG()`: the empty initializer produces a zeroed structure
(ctypes zero-initializes every field, including the 4128-byte array). -/
def PASSTHRU_MSG.empty : PASSTHRU_MSG :=
  ⟨0, 0, 0, 0, 0, 0, List.replicate 4128 0⟩

/-- `PASSTHRU_MSG(protocol, tx_flags=..., data=...)`: the standard (transmit)
initializer.  `(c_ubyte*4128)(*data)` zero-fills the tail of the array and
raises `ValueError` (modelled `none`) when `len(data) > 4128`; the structure
is then initialized with RxStatus 0, Timestamp 0, and both `DataSize` and
`ExtraDataIndex` set to `len(data)`. -/
def PASSTHRU_MSG.mkTx? (protocol tx_flags : Nat) (data : List Nat) :
    Option PASSTHRU_MSG :=
  if data.length ≤ 4128 then
    some ⟨protocol, 0x0, tx_flags, 0, data.length, data.length,
          data ++ List.replicate (4128 - data.length) 0⟩
  else
    none

/-- The `Data` property: `bytes(self._Data[:self.ExtraDataIndex])`. -/
def PASSTHRU_MSG.Data (m : PASSTHRU_MSG) : List Nat :=
  m.data.take m.extraDataIndex

/-- The `ExtraData` property:
`b'' if ExtraDataIndex == DataSize else bytes(_Data[ExtraDataIndex:DataSize])`
(Python slices clamp at the 4128-byte array length). -/
def PASSTHRU_MSG.ExtraData (m : PASSTHRU_MSG) : List Nat :=
  if m.extraDataIndex = m.dataSize then
    []
  else
    (m.data.drop m.extraDataIndex).take (m.dataSize - m.extraDataIndex)

/-- The `ProtocolID` property of `PASSTHRU_MSG`:
`return ProtocolID(self._ProtocolID)`; `none` models the `ValueError`
raised when the stored wire value is not a named member. -/
def PASSTHRU_MSG.readProtocolID (m : PASSTHRU_MSG) : Option ProtocolID :=
  ProtocolID.ofNat? m.protocolID

/-- A message whose `DataSize` and `ExtraDataIndex` fields have been set as
by a receive (the native call writes these two fields through the structure
pointer; the data array is left as is here). -/
def PASSTHRU_MSG.withRx (m : PASSTHRU_MSG) (ds ei : Nat) : PASSTHRU_MSG :=
  { m with dataSize := ds, extraDataIndex := ei }

/-- `SBYTE_ARRAY` ctypes structure from define.py; its initializer sets
`NumOfBytes = len(byte_arr)` and points `BytePtr` at the bytes. -/
structure SBYTE_ARRAY where
  numOfBytes : Nat
  bytes : List Nat
  deriving DecidableEq

/-- `SBYTE_ARRAY(byte_arr)` initializer. -/
def SBYTE_ARRAY.ofBytes (byte_arr : List Nat) : SBYTE_ARRAY :=
  ⟨byte_arr.length, byte_arr⟩

/-! ### dll.py : the J2534Dll wrapper -/

/-- Python exceptions escaping a wrapper operation:
`.valueError` for Python `ValueError` (local precondition failures and the
IntEnum conversion failure inside ctypes restype handling), `.typeError`
for Python `TypeError` (e.g. `byref(None)`), and `.j2534Error` for the
structured `J2534Error` (carrying the classified member — whose numeric
code is `J2534Errors.toCode` — and the rendered description). -/
inductive PyErr where
  | valueError (msg : String)
  | typeError (msg : String)
  | j2534Error (error : J2534Errors) (message : String)
  deriving DecidableEq

/-- `J2534Dll._error_check`: the default errcheck callback; raises
`J2534Error(result)` for every non-success member, else returns `None`.
For a member `e`, `J2534Error.__init__` stores the member itself and the
description `_get_error_text(e)`, which equals `_error_msg_map e`
(see `_get_error_text_member`). -/
def _error_check (result : J2534Errors) : Except PyErr (Option J2534Errors) :=
  if result ≠ J2534Errors.STATUS_NOERROR then
    .error (.j2534Error result (_error_msg_map result))
  else
    .ok none

/-- `J2534Dll._read_check`: errcheck for `PassThruReadMsgs`; returns
silently (None) on `ERR_BUFFER_EMPTY`, defers to `_error_check` otherwise. -/
def _read_check (result : J2534Errors) : Except PyErr (Option J2534Errors) :=
  if result = J2534Errors.ERR_BUFFER_EMPTY then
    .ok none
  else
    _error_check result

/-- One call through a ctypes foreign function annotated with
`restype = J2534Errors` and the given errcheck callback (dll.py lines
251-267).  ctypes converts the raw native status by calling
`J2534Errors(raw)` — a `ValueError` for any non-member code, e.g. the
reserved codes 0x1C-0xFFFF — and only then invokes the errcheck; the
errcheck's return value (always `None` here, modelled `none`) replaces the
result of the foreign call. -/
def _dll_call (check : J2534Errors → Except PyErr (Option J2534Errors))
    (raw : Nat) : Except PyErr (Option J2534Errors) :=
  match J2534Errors.ofNat? raw with
  | none => .error (.valueError (toString raw ++ " is not a valid J2534Errors"))
  | some e => check e

/-- Python `==` between the value a call returned (possibly `None`) and a
`J2534Errors` member: `None == member` is `False`. -/
def _py_eq_err : Option J2534Errors → J2534Errors → Bool
  | none, _ => false
  | some a, b => a == b

/-- Outputs of one native `PassThruReadMsgs` call: the returned status
code, the messages it wrote into the caller's buffer (from index 0), and
the value it stored through `pNumMsgs`. -/
structure ReadNativeResult where
  status : Nat
  written : List PASSTHRU_MSG
  numOut : Nat

/-- The timeout normalization in `PassThruReadMsgs`/`PassThruWriteMsgs`:
`if timeout is None or timeout < 0: timeout = 0`. -/
def _normalize_timeout : Option Int → Int
  | none => 0
  | some t => if t < 0 then 0 else t

/-- `J2534Dll.PassThruReadMsgs(channel_id, num_msgs=1, timeout=None)`:
allocates `num_msgs` zeroed messages, normalizes the timeout, performs the
native call (first component of the result is the timeout actually passed
to the native call), and returns
`[] if ret == ERR_BUFFER_EMPTY else list(Msg)[:NumMsgs.value]`.
Note `ret` is the value produced by the errcheck callback (`None`), not
the raw status. -/
def PassThruReadMsgs (native : ReadNativeResult) (_channel_id : Nat) (num_msgs : Nat)
    (timeout : Option Int) : Int × Except PyErr (List PASSTHRU_MSG) :=
  let Msg := List.replicate num_msgs PASSTHRU_MSG.empty
  let t := _normalize_timeout timeout
  let Msg1 := native.written ++ Msg.drop native.written.length
  (t,
    match _dll_call _read_check native.status with
    | .error e => .error e
    | .ok ret =>
        .ok (if _py_eq_err ret J2534Errors.ERR_BUFFER_EMPTY then []
             else Msg1.take native.numOut))

/-- Arguments the wrapper hands to the native `PassThruStartMsgFilter`
entry point; `none` in a message position is a NULL pointer. -/
structure FilterNativeArgs where
  channelID : Nat
  filterType : Nat
  maskPtr : Option PASSTHRU_MSG
  patternPtr : Option PASSTHRU_MSG
  flowPtr : Option PASSTHRU_MSG
  deriving DecidableEq

/-- ctypes `byref(x)`: a pointer to `x`; `byref(None)` raises `TypeError`. -/
def _byref : Option PASSTHRU_MSG → Except PyErr PASSTHRU_MSG
  | none =>
      .error (.typeError "byref argument must be a ctypes instance, not NoneType")
  | some m => .ok m

/-- `J2534Dll.PassThruStartMsgFilter`: for `FLOW_CONTROL_FILTER` (0x3) the
argument list is `byref(mask), byref(pattern), byref(flow)`; for every
other filter type it is `byref(mask), byref(pattern), None` — the supplied
`flow_msg` is dropped.  Returns the arguments forwarded to the native call. -/
def PassThruStartMsgFilter (nativeStatus : Nat) (channel_id filter_type : Nat)
    (mask_msg pattern_msg flow_msg : Option PASSTHRU_MSG) :
    Except PyErr FilterNativeArgs :=
  if filter_type == 0x3 then do
    let m ← _byref mask_msg
    let p ← _byref pattern_msg
    let f ← _byref flow_msg
    let _ ← _dll_call _error_check nativeStatus
    return ⟨channel_id, filter_type, some m, some p, some f⟩
  else do
    let m ← _byref mask_msg
    let p ← _byref pattern_msg
    let _ ← _dll_call _error_check nativeStatus
    return ⟨channel_id, filter_type, some m, some p, none⟩

/-- `_unused_params` inside `PassThruIoctlGetConfig`: P1_MIN (0x06),
P2_MIN (0x08), P2_MAX (0x09), P3_MAX (0x0B), P4_MAX (0x0D). -/
def _unused_params : List Nat := [0x06, 0x08, 0x09, 0x0B, 0x0D]

/-- Membership in the `_unused_params` set. -/
def _is_unused (p : Nat) : Bool :=
  p == 0x06 || p == 0x08 || p == 0x09 || p == 0x0B || p == 0x0D

/-- `J2534Dll.PassThruIoctlGetConfig(channel_id, params)`: splits the
(deduplicated, Python `set`) parameter list into the driver-internal ones —
each producing one warning-level `_logger.warn` notice naming it (first
component of the result) — and the rest, which are forwarded to the native
GET_CONFIG ioctl with initial value 0; returns the mapping from each
forwarded parameter to the value the native call wrote for it.  `native`
models the driver's parameter valuation. -/
def PassThruIoctlGetConfig (native : Nat → Nat) (nativeStatus : Nat)
    (_channel_id : Nat) (params : List Nat) :
    Except PyErr (List Nat × List (Nat × Nat)) := do
  let warnParams := params.dedup.filter (fun p => _is_unused p)
  let fwd := (params.dedup.filter (fun p => ! _is_unused p)).filter
      (fun p => ! _is_unused p)
  let filled := fwd.map (fun par => (par, native par))
  let _ ← _dll_call _error_check nativeStatus
  return (warnParams, filled)

/-- `J2534Dll.PassThruStartPeriodicMsg(channel_id, msg, interval)`:
`if interval not in range(5, 65536): raise ValueError(...)` — a local
precondition failure before the native call; otherwise the native call is
made and checked by `_error_check`. -/
def PassThruStartPeriodicMsg (nativeStatus : Nat) (_channel_id : Nat)
    (_msg : PASSTHRU_MSG) (interval : Int) : Except PyErr (Option J2534Errors) :=
  if ¬ (5 ≤ interval ∧ interval < 65536) then
    .error (.valueError "\x60interval\x60 must be between 5-65535")
  else
    _dll_call _error_check nativeStatus

/-- `J2534Dll.PassThruSetProgrammingVoltage(device_id, pin_number, voltage)`:
accepted voltages are `SHORT_TO_GROUND` (0xFFFFFFFE), `VOLTAGE_OFF`
(0xFFFFFFFF), and `range(MIN_VOLTAGE, MAX_VOLTAGE + 1)` = [5000, 20000];
anything else raises `ValueError` before the native call. -/
def PassThruSetProgrammingVoltage (nativeStatus : Nat) (_device_id _pin : Nat)
    (voltage : Nat) : Except PyErr (Option J2534Errors) :=
  if ¬ (voltage = 0xFFFFFFFE ∨ voltage = 0xFFFFFFFF ∨
        (5000 ≤ voltage ∧ voltage ≤ 20000)) then
    .error (.valueError "\x60voltage\x60 must be between 5000 and 20000")
  else
    _dll_call _error_check nativeStatus

/-- What one `PassThruIoctlFiveBaudInit` call put on the native boundary
and handed back: the ioctl sub-code, the input byte array, the output byte
array as pre-filled by the wrapper, the output array after the native call
wrote the ECU response into it, and the wrapper's Python return value. -/
structure FiveBaudTrace where
  ioctlID : Nat
  input : SBYTE_ARRAY
  outputBefore : SBYTE_ARRAY
  outputAfter : SBYTE_ARRAY
  ret : Option (List Nat)
  deriving DecidableEq

/-- `J2534Dll.PassThruIoctlFiveBaudInit(channel_id, addr)`: builds
`Input = SBYTE_ARRAY(bytes([addr]))` (a `ValueError` when `addr` is not a
byte) and `Output = SBYTE_ARRAY(b'\xff\xff')`, invokes the FIVE_BAUD_INIT
(0x04) ioctl with both by reference, and falls off the end of the function:
the Python return value is `None` (`ret := none`) whatever the native call
wrote into `Output` (`nativeWrite`, clamped to the 2-byte buffer). -/
def PassThruIoctlFiveBaudInit (nativeWrite : List Nat) (nativeStatus : Nat)
    (_channel_id addr : Nat) : Except PyErr FiveBaudTrace := do
  if addr < 256 then do
    let Input := SBYTE_ARRAY.ofBytes [addr]
    let Output := SBYTE_ARRAY.ofBytes [0xFF, 0xFF]
    let _ ← _dll_call _error_check nativeStatus
    let OutputAfter : SBYTE_ARRAY :=
      ⟨Output.numOfBytes,
       nativeWrite.take 2 ++ Output.bytes.drop (nativeWrite.take 2).length⟩
    return ⟨0x04, Input, Output, OutputAfter, none⟩
  else
    .error (.valueError "bytes must be in range(0, 256)")

/-- `J2534Dll.PassThruIoctlFastInit(channel_id, msg=None)`: the wrapper
builds a fresh `Input = PASSTHRU_MSG()` and `Output = PASSTHRU_MSG()` —
the caller-supplied `msg` argument is never used — and invokes the
FAST_INIT ioctl with `byref(Input) if Input is not None else None` (the
guard is always true) and `byref(Output)`, returning `Output` as filled by
the native call.  `native` models what the native call writes through the
output pointer as a function of the input message pointer it was given;
the result pairs the forwarded input pointer with the returned output. -/
def PassThruIoctlFastInit (native : Option PASSTHRU_MSG → PASSTHRU_MSG)
    (nativeStatus : Nat) (_channel_id : Nat) (_msg : Option PASSTHRU_MSG) :
    Except PyErr (Option PASSTHRU_MSG × PASSTHRU_MSG) :=
  let Input := PASSTHRU_MSG.empty
  let inputArg : Option PASSTHRU_MSG := some Input
  let Output := native inputArg
  match _dll_call _error_check nativeStatus with
  | .error e => .error e
  | .ok _ => .ok (inputArg, Output)

end PyJ2534

namespace PyJ2534

/-! Theorems (C1 placeholder compile test) -/

/-- C1: the error classification is total over the unsigned 32-bit code
domain: every code 0x00-0x1A classifies to the member of that exact numeric
value with its fixed description from `_error_msg_map`; every code
0x1B-0xFFFF classifies to `RESERVED_J2534_1` with description
"Reserved for SAE J2534-1"; every code >= 0x10000 classifies to
`RESERVED_J2534_2` with description "Reserved for SAE J2534-2";
classification never fails to produce a result. -/
theorem C1_classification_total (c : Nat) (hc : c < 2 ^ 32) :
    (_get_error_text c).isSome ∧
    (c ≤ 0x1A → ∃ e, J2534Errors.ofNat? c = some e ∧ e.toCode = c ∧
        _error_id c = some e ∧ _get_error_text c = some (_error_msg_map e)) ∧
    (0x1B ≤ c → c ≤ 0xFFFF →
        _error_id c = some .RESERVED_J2534_1 ∧
        _get_error_text c = some "Reserved for SAE J2534-1") ∧
    (0x10000 ≤ c →
        _error_id c = some .RESERVED_J2534_2 ∧
        _get_error_text c = some "Reserved for SAE J2534-2") := by
  refine ⟨?_, ?_, ?_, ?_⟩
  · rcases Nat.lt_or_ge c 0x1B with h | h
    · interval_cases c <;> decide
    · rcases Nat.lt_or_ge c 0x10000 with h2 | h2 <;>
        simp [_get_error_text, _error_id, Nat.not_lt.mpr h, h2, Nat.not_lt.mpr h2]
  · intro h
    interval_cases c <;> exact ⟨_, rfl, rfl, rfl, rfl⟩
  · intro h1 h2
    have hn : ¬ c < 0x1B := Nat.not_lt.mpr h1
    have hlt : c < 0x10000 := Nat.lt_succ_of_le h2
    simp [_get_error_text, _error_id, hn, hlt, _error_msg_map]
  · intro h1
    have hn : ¬ c < 0x1B := by omega
    have hn2 : ¬ c < 0x10000 := Nat.not_lt.mpr h1
    simp [_get_error_text, _error_id, hn, hn2, _error_msg_map]

/-- Witness for C1 at concrete codes 0x05, 0x1C and 0x12345. -/
theorem C1_classification_total_witness :
    ((0x1C : Nat) < 2 ^ 32 ∧ (_get_error_text 0x1C).isSome) ∧
    _get_error_text 0x1C = some "Reserved for SAE J2534-1" ∧
    _get_error_text 0x12345 = some "Reserved for SAE J2534-2" := by
  refine ⟨⟨by norm_num, (C1_classification_total 0x1C (by norm_num)).1⟩, ?_, ?_⟩
  · exact ((C1_classification_total 0x1C (by norm_num)).2.2.1 (by norm_num)
      (by norm_num)).2
  · exact ((C1_classification_total 0x12345 (by norm_num)).2.2.2 (by norm_num)).2

/-- C2 counterexample: the claim quantifies over payloads `P` with
`len(P) ≤ 4128`, but at `len(P) = 4127` the simulated receive sets
used-length `4129`, beyond the 4128-byte array, the slice clamps, and
`ExtraData` has a single byte rather than the claimed 2 trailing bytes. -/
theorem C2_counterexample :
    PASSTHRU_MSG.mkTx? 0x05 0 (List.replicate 4127 1) =
      some ⟨0x05, 0, 0, 0, 4127, 4127, List.replicate 4127 1 ++ [0]⟩ ∧
    PASSTHRU_MSG.ExtraData
      ((⟨0x05, 0, 0, 0, 4127, 4127, List.replicate 4127 1 ++ [0]⟩ :
          PASSTHRU_MSG).withRx (4127 + 2) 4127) = [0] ∧
    ¬ (PASSTHRU_MSG.ExtraData
      ((⟨0x05, 0, 0, 0, 4127, 4127, List.replicate 4127 1 ++ [0]⟩ :
          PASSTHRU_MSG).withRx (4127 + 2) 4127)).length = 2 := by
  have hl : (List.replicate 4127 (1 : Nat)).length = 4127 :=
    List.length_replicate 4127 1
  have hdrop : (List.replicate 4127 (1 : Nat) ++ [0]).drop 4127 = [0] := by
    have := List.drop_left (List.replicate 4127 (1 : Nat)) [0]
    rwa [hl] at this
  have hE : PASSTHRU_MSG.ExtraData
      ((⟨0x05, 0, 0, 0, 4127, 4127, List.replicate 4127 1 ++ [0]⟩ :
          PASSTHRU_MSG).withRx (4127 + 2) 4127) = [0] := by
    show PASSTHRU_MSG.ExtraData
      ⟨0x05, 0, 0, 0, 4127 + 2, 4127, List.replicate 4127 1 ++ [0]⟩ = [0]
    unfold PASSTHRU_MSG.ExtraData
    rw [if_neg (by norm_num)]
    have hc : (4127 + 2 - 4127 : Nat) = 2 := by norm_num
    simp only [hc, hdrop]
    rfl
  refine ⟨?_, hE, ?_⟩
  · unfold PASSTHRU_MSG.mkTx?
    rw [hl, if_pos (by norm_num)]
    have hs : (4128 - 4127 : Nat) = 1 := by norm_num
    rw [hs, List.replicate_one]
  · rw [hE]
    norm_num

/-- C2 (amended): constructing a transmit message from a protocol ID and a
payload `P` with `len(P) ≤ 4128` yields `Data == P` and `ExtraData == b''`
(used length and extra-data index both `len(P)`); and whenever
`len(P) ≤ 4126` (so that the receive-set used length `len(P)+2` stays
within the 4128-byte array), setting used length `len(P)+2` and extra-data
index `len(P)` yields `Data == P` and `ExtraData` equal to the 2 trailing
bytes of the used region, i.e. `Data` and `ExtraData` are the two
non-overlapping contiguous slices `[0, extra-data index)` and
`[extra-data index, used length)` of the payload. -/
theorem C2_message_roundtrip (proto tf : Nat) (P : List Nat)
    (h : P.length ≤ 4128) :
    ∃ m, PASSTHRU_MSG.mkTx? proto tf P = some m ∧
      m.Data = P ∧ m.ExtraData = [] ∧
      (P.length ≤ 4126 →
        (m.withRx (P.length + 2) P.length).Data = P ∧
        (m.withRx (P.length + 2) P.length).ExtraData = [0, 0] ∧
        (m.withRx (P.length + 2) P.length).Data =
          (m.data.take (P.length + 2)).take P.length ∧
        (m.withRx (P.length + 2) P.length).ExtraData =
          (m.data.take (P.length + 2)).drop P.length ∧
        (m.withRx (P.length + 2) P.length).Data ++
            (m.withRx (P.length + 2) P.length).ExtraData =
          m.data.take (P.length + 2)) := by
  refine ⟨⟨proto, 0x0, tf, 0, P.length, P.length,
    P ++ List.replicate (4128 - P.length) 0⟩, ?_, ?_, ?_, ?_⟩
  · simp [PASSTHRU_MSG.mkTx?, h]
  · simp [PASSTHRU_MSG.Data, List.take_left]
  · simp [PASSTHRU_MSG.ExtraData]
  · intro h2
    have hData : (P ++ List.replicate (4128 - P.length) 0).take P.length = P :=
      List.take_left P _
    have hDrop : (P ++ List.replicate (4128 - P.length) 0).drop P.length =
        List.replicate (4128 - P.length) 0 := List.drop_left P _
    have hmin : min 2 (4128 - P.length) = 2 := by omega
    have hExtra : ((P ++ List.replicate (4128 - P.length) 0).drop
        P.length).take (P.length + 2 - P.length) = [0, 0] := by
      rw [hDrop]
      simp [List.take_replicate, hmin, List.replicate]
    have hne : P.length ≠ P.length + 2 := by omega
    have hc2 : P.length + 2 - P.length = 2 := by omega
    refine ⟨?_, ?_, ?_, ?_, ?_⟩
    · simp [PASSTHRU_MSG.withRx, PASSTHRU_MSG.Data, hData]
    · simpa [PASSTHRU_MSG.withRx, PASSTHRU_MSG.ExtraData, hne] using hExtra
    · simp [PASSTHRU_MSG.withRx, PASSTHRU_MSG.Data, List.take_take,
        Nat.min_eq_left (by omega : P.length ≤ P.length + 2)]
    · rw [List.drop_take]
      simp [PASSTHRU_MSG.withRx, PASSTHRU_MSG.ExtraData, hne]
    · simp only [PASSTHRU_MSG.withRx, PASSTHRU_MSG.Data, PASSTHRU_MSG.ExtraData,
        if_neg hne]
      rw [hc2, List.take_add]

/-- Witness for C2 (amended) at the concrete payload `[0xAA, 0xBB]`. -/
theorem C2_message_roundtrip_witness :
    PASSTHRU_MSG.mkTx? 0x05 0 [0xAA, 0xBB] =
      some ⟨0x05, 0, 0, 0, 2, 2, 0xAA :: 0xBB :: List.replicate 4126 0⟩ ∧
    PASSTHRU_MSG.Data
      ⟨0x05, 0, 0, 0, 2, 2, 0xAA :: 0xBB :: List.replicate 4126 0⟩ =
      [0xAA, 0xBB] ∧
    PASSTHRU_MSG.ExtraData
      ⟨0x05, 0, 0, 0, 2, 2, 0xAA :: 0xBB :: List.replicate 4126 0⟩ = [] ∧
    PASSTHRU_MSG.Data
      (PASSTHRU_MSG.withRx
        ⟨0x05, 0, 0, 0, 2, 2, 0xAA :: 0xBB :: List.replicate 4126 0⟩ 4 2) =
      [0xAA, 0xBB] ∧
    PASSTHRU_MSG.ExtraData
      (PASSTHRU_MSG.withRx
        ⟨0x05, 0, 0, 0, 2, 2, 0xAA :: 0xBB :: List.replicate 4126 0⟩ 4 2) =
      [0, 0] := by
  obtain ⟨m, h1, h2, h3, h4⟩ :=
    C2_message_roundtrip 0x05 0 [0xAA, 0xBB] (by norm_num)
  obtain ⟨h5, h6, -⟩ := h4 (by norm_num)
  have h0 : PASSTHRU_MSG.mkTx? 0x05 0 [0xAA, 0xBB] =
      some ⟨0x05, 0, 0, 0, 2, 2, 0xAA :: 0xBB :: List.replicate 4126 0⟩ := rfl
  have hm : m = ⟨0x05, 0, 0, 0, 2, 2, 0xAA :: 0xBB :: List.replicate 4126 0⟩ :=
    Option.some.inj (h1.symm.trans h0)
  rw [hm] at h2 h3 h5 h6
  exact ⟨h0, h2, h3, h5, h6⟩

/-- C3: fails on the code.  `ProtocolID` is a plain IntEnum, so constructing
it from a value in a reserved or manufacturer-specific band that is not one
of the named anchor values raises `ValueError` instead of round-tripping the
integer: `ProtocolID(0x0C)` raises (modelled `none`), and reading the
`ProtocolID` property back from a received message whose wire value is 0x0C
raises as well.  Only the named anchor values construct successfully. -/
theorem C3_reserved_protocol_construction_raises :
    ProtocolID.ofNat? 0x0C = none ∧
    PASSTHRU_MSG.readProtocolID
      ⟨0x0C, 0, 0, 0, 0, 0, List.replicate 4128 0⟩ = none ∧
    ProtocolID.ofNat? 0x0B = some ProtocolID.RESERVED ∧
    ProtocolID.ofNat? 0x8000 = some ProtocolID.RESERVED_J2534_2 ∧
    ProtocolID.ofNat? 0x10000 = some ProtocolID.MFG_SPECIFIC := by
  exact ⟨rfl, rfl, rfl, rfl, rfl⟩

/-- For every member `e`, `_get_error_text` on the member's code classifies
back to the member with its `_error_msg_map` entry; this justifies the
description string stored by `_error_check` when raising `J2534Error`. -/
theorem _get_error_text_member (e : J2534Errors) :
    _get_error_text e.toCode = some (_error_msg_map e) := by
  cases e <;> rfl

/-- C4: fails on the code for reserved-band status codes.  With the default
errcheck, a non-zero native status that is a named member raises the
structured `J2534Error` carrying the classified member (hence its code)
and its description — but a status in a reserved band that is not a named
member (e.g. 0x1C in 0x1B-0xFFFF, or 0x10001 in the band above 0x10000)
makes the ctypes restype conversion `J2534Errors(raw)` raise a bare
`ValueError` before any classification, so the structured failure the
claim requires is never constructed for those codes. -/
theorem C4_default_errcheck_raises :
    _dll_call _error_check 0x03 =
      .error (.j2534Error J2534Errors.ERR_INVALID_PROTOCOL_ID
        (_error_msg_map J2534Errors.ERR_INVALID_PROTOCOL_ID)) ∧
    _dll_call _error_check 0x1B =
      .error (.j2534Error J2534Errors.RESERVED_J2534_1
        "Reserved for SAE J2534-1") ∧
    _dll_call _error_check 0x1C =
      .error (.valueError "28 is not a valid J2534Errors") ∧
    _dll_call _error_check 0x10001 =
      .error (.valueError "65537 is not a valid J2534Errors") := by
  exact ⟨rfl, rfl, rfl, rfl⟩

/-- C5: `PassThruReadMsgs` with `timeout` absent or negative passes timeout
0 to the native call; when the native call reports `ERR_BUFFER_EMPTY`
(having stored 0 through `pNumMsgs`, as the J2534 native contract
prescribes) the wrapper returns `[]` without raising; on success it
returns the first `NumMsgs` messages the native call wrote, in receipt
order. -/
theorem C5_read_msgs_empty_buffer (nr : ReadNativeResult) (ch n : Nat)
    (t : Option Int)
    (hw : nr.written.length = nr.numOut)
    (hempty : nr.status = 0x10 → nr.numOut = 0) :
    ((t = none ∨ ∃ v, t = some v ∧ v < 0) →
        (PassThruReadMsgs nr ch n t).1 = 0) ∧
    (nr.status = 0x10 → (PassThruReadMsgs nr ch n t).2 = .ok []) ∧
    (nr.status = 0x00 → (PassThruReadMsgs nr ch n t).2 = .ok nr.written) := by
  refine ⟨?_, ?_, ?_⟩
  · rintro (rfl | ⟨v, rfl, hv⟩)
    · rfl
    · simp [PassThruReadMsgs, _normalize_timeout, hv]
  · intro hs
    have h0 : nr.numOut = 0 := hempty hs
    have hcall : _dll_call _read_check 0x10 = .ok none := rfl
    simp [PassThruReadMsgs, hs, hcall, _py_eq_err, h0]
  · intro hs
    have hcall : _dll_call _read_check 0x00 = .ok none := rfl
    have htake : List.take nr.numOut
        (nr.written ++ List.replicate (n - nr.written.length)
          PASSTHRU_MSG.empty) = nr.written := by
      rw [← hw]
      exact List.take_left _ _
    simp [PassThruReadMsgs, hs, hcall, _py_eq_err, htake]

/-- Witness for C5: a native call reporting an empty buffer
(status `ERR_BUFFER_EMPTY`, `NumMsgs` set to 0) with no timeout supplied. -/
theorem C5_read_msgs_empty_buffer_witness :
    (PassThruReadMsgs ⟨0x10, [], 0⟩ 1 1 none).1 = 0 ∧
    (PassThruReadMsgs ⟨0x10, [], 0⟩ 1 1 none).2 = .ok [] := by
  refine ⟨?_, ?_⟩
  · exact (C5_read_msgs_empty_buffer ⟨0x10, [], 0⟩ 1 1 none rfl
      (fun _ => rfl)).1 (Or.inl rfl)
  · exact (C5_read_msgs_empty_buffer ⟨0x10, [], 0⟩ 1 1 none rfl
      (fun _ => rfl)).2.1 rfl

/-- C6: fails on the code.  `PassThruIoctlFastInit` builds a fresh empty
`PASSTHRU_MSG()` and forwards that to the FAST_INIT ioctl, ignoring the
caller-supplied message entirely: at a concrete non-empty supplied
message, the input forwarded to the native call is a zeroed message, not
the supplied one.  (The response structure is returned, as the claim
states.) -/
theorem C6_fastinit_ignores_supplied_msg :
    (PassThruIoctlFastInit (fun _ => PASSTHRU_MSG.empty) 0 1
        (some ⟨0x06, 0, 0, 0, 1, 1, 1 :: List.replicate 4127 0⟩)) =
      .ok (some PASSTHRU_MSG.empty, PASSTHRU_MSG.empty) ∧
    (⟨0x06, 0, 0, 0, 1, 1, 1 :: List.replicate 4127 0⟩ : PASSTHRU_MSG) ≠
      PASSTHRU_MSG.empty := by
  refine ⟨rfl, ?_⟩
  intro h
  exact one_ne_zero (congrArg PASSTHRU_MSG.dataSize h)

/-- C7: `PassThruStartMsgFilter` with `FLOW_CONTROL_FILTER` (0x3) and no
flow-control message raises (ctypes `byref(None)` is a `TypeError`) before
the native call — it never silently substitutes a default; with
`PASS_FILTER` (0x1) or `BLOCK_FILTER` (0x2) and a flow-control message
supplied, the native call receives NULL in the flow-control position: the
supplied message is omitted. -/
theorem C7_flow_control_argument (st ch : Nat) (m p : PASSTHRU_MSG)
    (fc : Option PASSTHRU_MSG) :
    PassThruStartMsgFilter st ch 0x3 (some m) (some p) none =
      .error
        (.typeError "byref argument must be a ctypes instance, not NoneType") ∧
    PassThruStartMsgFilter 0 ch 0x1 (some m) (some p) fc =
      .ok ⟨ch, 0x1, some m, some p, none⟩ ∧
    PassThruStartMsgFilter 0 ch 0x2 (some m) (some p) fc =
      .ok ⟨ch, 0x2, some m, some p, none⟩ := by
  have hc0 : _dll_call _error_check 0 = .ok none := rfl
  refine ⟨?_, ?_, ?_⟩ <;>
    simp [PassThruStartMsgFilter, _byref, hc0, bind, Except.bind, pure,
      Except.pure]

/-- Witness for C7 at concrete arguments (native status 5, channel 2,
zeroed mask/pattern/flow-control messages). -/
theorem C7_flow_control_argument_witness :
    PassThruStartMsgFilter 5 2 0x3 (some PASSTHRU_MSG.empty)
        (some PASSTHRU_MSG.empty) none =
      .error
        (.typeError "byref argument must be a ctypes instance, not NoneType") ∧
    PassThruStartMsgFilter 0 2 0x1 (some PASSTHRU_MSG.empty)
        (some PASSTHRU_MSG.empty) (some PASSTHRU_MSG.empty) =
      .ok ⟨2, 0x1, some PASSTHRU_MSG.empty, some PASSTHRU_MSG.empty, none⟩ :=
  ⟨(C7_flow_control_argument 5 2 PASSTHRU_MSG.empty PASSTHRU_MSG.empty
      (some PASSTHRU_MSG.empty)).1,
   (C7_flow_control_argument 5 2 PASSTHRU_MSG.empty PASSTHRU_MSG.empty
      (some PASSTHRU_MSG.empty)).2.1⟩

/-- C8: `PassThruIoctlGetConfig` on a two-element parameter list holding
one driver-internal parameter `a` and one regular parameter `b` forwards
only `b`, returns the mapping whose only key is `b` (with the value the
native call wrote), and emits exactly one warning notice naming `a` — in
either list order. -/
theorem C8_getconfig_filters_internal (native : Nat → Nat) (ch a b : Nat)
    (ha : _is_unused a = true) (hb : _is_unused b = false) :
    PassThruIoctlGetConfig native 0 ch [a, b] = .ok ([a], [(b, native b)]) ∧
    PassThruIoctlGetConfig native 0 ch [b, a] = .ok ([a], [(b, native b)]) := by
  have hab : a ≠ b := by
    intro hcontra
    rw [hcontra, hb] at ha
    exact Bool.noConfusion ha
  have hone : ∀ x : Nat, ([x] : List Nat).dedup = [x] := fun x => by
    rw [List.dedup_cons_of_not_mem (by simp), List.dedup_nil]
  have hd1 : ([a, b] : List Nat).dedup = [a, b] := by
    rw [List.dedup_cons_of_not_mem (by simp [hab]), hone]
  have hd2 : ([b, a] : List Nat).dedup = [b, a] := by
    rw [List.dedup_cons_of_not_mem (by simp [Ne.symm hab]), hone]
  have hc0 : _dll_call _error_check 0 = .ok none := rfl
  refine ⟨?_, ?_⟩ <;>
    simp [PassThruIoctlGetConfig, hd1, hd2, List.filter_cons, ha, hb, hc0,
      bind, Except.bind, pure, Except.pure]

/-- Witness for C8 with the driver-internal parameter P1_MIN (0x06) and
the regular parameter DATA_RATE (0x01). -/
theorem C8_getconfig_filters_internal_witness :
    PassThruIoctlGetConfig (fun _ => 0) 0 1 [0x06, 0x01] =
      .ok ([0x06], [(0x01, 0)]) ∧
    PassThruIoctlGetConfig (fun _ => 0) 0 1 [0x01, 0x06] =
      .ok ([0x06], [(0x01, 0)]) :=
  C8_getconfig_filters_internal (fun _ => 0) 1 0x06 0x01 rfl rfl

/-- C9: both caller-side-validated preconditions are checked locally before
any native call (the local `ValueError` is raised for every native status):
interval 4 and 65536 fail, 5 and 65535 are accepted, and a successful call
characterizes the accepted range as exactly [5, 65535]; voltage 4999 fails
while 5000, 20000 and the sentinels SHORT_TO_GROUND (0xFFFFFFFE) and
VOLTAGE_OFF (0xFFFFFFFF) are accepted. -/
theorem C9_local_preconditions (st ch dev pin : Nat) (m : PASSTHRU_MSG)
    (i : Int) :
    PassThruStartPeriodicMsg st ch m 4 =
      .error (.valueError "\x60interval\x60 must be between 5-65535") ∧
    PassThruStartPeriodicMsg st ch m 65536 =
      .error (.valueError "\x60interval\x60 must be between 5-65535") ∧
    (PassThruStartPeriodicMsg 0 ch m i = .ok none ↔ 5 ≤ i ∧ i ≤ 65535) ∧
    PassThruStartPeriodicMsg 0 ch m 5 = .ok none ∧
    PassThruStartPeriodicMsg 0 ch m 65535 = .ok none ∧
    PassThruSetProgrammingVoltage st dev pin 4999 =
      .error (.valueError "\x60voltage\x60 must be between 5000 and 20000") ∧
    PassThruSetProgrammingVoltage 0 dev pin 5000 = .ok none ∧
    PassThruSetProgrammingVoltage 0 dev pin 20000 = .ok none ∧
    PassThruSetProgrammingVoltage 0 dev pin 0xFFFFFFFE = .ok none ∧
    PassThruSetProgrammingVoltage 0 dev pin 0xFFFFFFFF = .ok none := by
  have hc0 : _dll_call _error_check 0 = .ok none := rfl
  refine ⟨?_, ?_, ?_, ?_, ?_, ?_, ?_, ?_, ?_, ?_⟩
  · norm_num [PassThruStartPeriodicMsg]
  · norm_num [PassThruStartPeriodicMsg]
  · constructor
    · intro h
      by_contra hoff
      have hnot : ¬ (5 ≤ i ∧ i < 65536) := by omega
      simp [PassThruStartPeriodicMsg, hnot] at h
    · rintro ⟨h1, h2⟩
      have h3 : i < 65536 := by omega
      simp [PassThruStartPeriodicMsg, h1, h3, hc0]
  · norm_num [PassThruStartPeriodicMsg, hc0]
  · norm_num [PassThruStartPeriodicMsg, hc0]
  · norm_num [PassThruSetProgrammingVoltage]
  · norm_num [PassThruSetProgrammingVoltage, hc0]
  · norm_num [PassThruSetProgrammingVoltage, hc0]
  · norm_num [PassThruSetProgrammingVoltage, hc0]
  · norm_num [PassThruSetProgrammingVoltage, hc0]

/-- Witness for C9 at concrete inputs (native status 7, channel/device 1,
pin 6, interval 100 for the accepted-range equivalence). -/
theorem C9_local_preconditions_witness :
    PassThruStartPeriodicMsg 7 1 PASSTHRU_MSG.empty 4 =
      .error (.valueError "\x60interval\x60 must be between 5-65535") ∧
    PassThruStartPeriodicMsg 0 1 PASSTHRU_MSG.empty 100 = .ok none ∧
    PassThruSetProgrammingVoltage 7 1 6 4999 =
      .error (.valueError "\x60voltage\x60 must be between 5000 and 20000") :=
  ⟨(C9_local_preconditions 7 1 1 6 PASSTHRU_MSG.empty 100).1,
   (C9_local_preconditions 7 1 1 6 PASSTHRU_MSG.empty 100).2.2.1.mpr
     (by norm_num),
   (C9_local_preconditions 7 1 1 6 PASSTHRU_MSG.empty 100).2.2.2.2.2.1⟩

/-- C10: `PassThruIoctlFiveBaudInit` passes a 1-byte input buffer holding
the address and a 2-byte output buffer pre-filled 0xFF 0xFF to the
FIVE_BAUD_INIT ioctl, and returns `None`: whatever bytes the native call
writes into the output buffer, the wrapper's Python return value is
`none` — the ECU response is never returned to the caller. -/
theorem C10_five_baud_init (nw : List Nat) (ch addr : Nat)
    (h : addr < 256) :
    PassThruIoctlFiveBaudInit nw 0 ch addr =
      .ok ⟨0x04, ⟨1, [addr]⟩, ⟨2, [0xFF, 0xFF]⟩,
           ⟨2, nw.take 2 ++ ([0xFF, 0xFF] : List Nat).drop (nw.take 2).length⟩,
           none⟩ ∧
    (PassThruIoctlFiveBaudInit nw 0 ch addr).map FiveBaudTrace.ret =
      .ok none := by
  have h1 : PassThruIoctlFiveBaudInit nw 0 ch addr =
      .ok ⟨0x04, ⟨1, [addr]⟩, ⟨2, [0xFF, 0xFF]⟩,
           ⟨2, nw.take 2 ++ ([0xFF, 0xFF] : List Nat).drop (nw.take 2).length⟩,
           none⟩ := by
    have hc0 : _dll_call _error_check 0 = .ok none := rfl
    simp [PassThruIoctlFiveBaudInit, h, SBYTE_ARRAY.ofBytes, hc0, bind,
      Except.bind, pure, Except.pure]
  exact ⟨h1, by rw [h1]; rfl⟩

/-- Witness for C10 at channel 1, address 0x33, with the native call
writing the ECU response bytes 0x55 0x66 into the output buffer. -/
theorem C10_five_baud_init_witness :
    PassThruIoctlFiveBaudInit [0x55, 0x66] 0 1 0x33 =
      .ok ⟨0x04, ⟨1, [0x33]⟩, ⟨2, [0xFF, 0xFF]⟩, ⟨2, [0x55, 0x66]⟩, none⟩ := by
  have h := (C10_five_baud_init [0x55, 0x66] 1 0x33 (by norm_num)).1
  simpa using h

end PyJ2534
